import Mathlib

/-!
Verification of the task orchestration and multi-agent coordination subsystem
of the ai-agent-team-management backend, as a shallow embedding in Lean 4.

Each definition mirrors one function of the Python source:
  - string scanning helpers mirror the substring tests done with the
    Python operators `in`, `.upper()`, `.lower()`;
  - `get_detailed_status` mirrors Task.get_detailed_status (models/task.py);
  - `extract_next_worker` / `route_supervisor` mirror SupervisorAgent
    (agents/supervisor_agent.py);
  - `leader_review_node` / `should_continue` mirror DynamicTeamAgent
    (agents/dynamic_team_agent.py);
  - `select_pattern` mirrors the dispatch in ExecutionService.execute_task
    (services/execution_service.py);
  - `execute_task_single` / `execute_with_supervisor` mirror the terminal
    handling of ExecutionService.execute_task / _execute_with_supervisor;
  - `humanInputRun` mirrors HumanInputTool._run (tools/human_input_tool.py);
  - `respond_to_interaction`, `send_user_message`, `execute_task_api` mirror
    the corresponding endpoints (api/task_interactions.py, api/tasks.py);
  - `wait_for_approval`, `approve_request`, `reject_request` mirror
    ApprovalService (services/approval_service.py).
-/

/-- Characters of a string, uppercased characterwise (mirrors Python
`s.upper()` on the ASCII letters these checks rely on). -/
def upperChars (s : String) : List Char := s.data.map Char.toUpper

/-- Characters of a string, lowercased characterwise (mirrors Python
`s.lower()` on the ASCII letters these checks rely on). -/
def lowerChars (s : String) : List Char := s.data.map Char.toLower

/-- Substring test on character lists: mirrors the Python operator
`needle in hay` on strings. -/
def containsSub (needle : List Char) : List Char → Bool
  | [] => needle.isEmpty
  | c :: rest => needle.isPrefixOf (c :: rest) || containsSub needle rest

/-- `SupervisorAgent._extract_next_worker` (supervisor_agent.py lines
113-127): uppercase the response; return FINISH when the text contains
FINISH; otherwise the first registered worker whose uppercased name is a
substring; otherwise the first registered worker (FINISH when none). -/
def extract_next_worker (workers : List String) (content : String) : String :=
  let content_upper := upperChars content
  if containsSub (upperChars "FINISH") content_upper then "FINISH"
  else
    match workers.find? (fun w => containsSub (upperChars w) content_upper) with
    | some w => w
    | none => workers.headD "FINISH"

/-- A routing decision of a LangGraph conditional edge: either a named node
or the terminal END state. -/
inductive GraphRoute where
  | node (name : String)
  | terminalEnd
deriving DecidableEq

/-- `route_supervisor` inside `SupervisorAgent._build_graph`
(supervisor_agent.py lines 261-266): "FINISH" routes to END, any other
value routes to the worker node of that name; a missing "next" key
defaults to "FINISH". -/
def route_supervisor (next : Option String) : GraphRoute :=
  let next_node := next.getD "FINISH"
  if next_node = "FINISH" then GraphRoute.terminalEnd
  else GraphRoute.node next_node

/-- `needs_more_work` test of `leader_review_node`
(dynamic_team_agent.py line 241): the review text contains one of the
three continuation markers. -/
def needs_more_work (final_result : String) : Bool :=
  containsSub "追加作業が必要".data final_result.data ||
  containsSub "再度".data final_result.data ||
  containsSub "もう一度".data final_result.data

/-- The state fields written by `leader_review_node`
(dynamic_team_agent.py lines 212-250) that drive routing: the stored
`final_result` and the chosen `next_action`. -/
structure ReviewOut where
  final_result : String
  next_action : String
deriving DecidableEq

/-- `leader_review_node` (dynamic_team_agent.py lines 212-250): stores the
leader response as `final_result`; `next_action` is "execute_members" when
a continuation marker occurs in the response, otherwise "end". -/
def leader_review_node (reviewText : String) : ReviewOut :=
  { final_result := reviewText,
    next_action := if needs_more_work reviewText then "execute_members" else "end" }

/-- `should_continue` inside `DynamicTeamAgent._build_graph`
(dynamic_team_agent.py lines 263-265): a missing `next_action` defaults to
"end"; "end" routes to END and anything else to the node of that name. -/
def should_continue (next_action : Option String) : GraphRoute :=
  let a := next_action.getD "end"
  if a ≠ "end" then GraphRoute.node a else GraphRoute.terminalEnd

/-- The fields of an Agent row that pattern selection inspects. -/
structure AgentRow where
  agent_type : String
deriving DecidableEq

/-- The three coordination patterns of ExecutionService. -/
inductive CoordPattern where
  | dynamicTeam
  | supervisorPattern
  | singleAgent
deriving DecidableEq

/-- Pattern dispatch of `ExecutionService.execute_task`
(execution_service.py lines 81-98): a task must have an assigned agent and
that agent must exist; with both team_member_ids (truthy, i.e. non-empty)
and leader_agent_id set the Dynamic-Team pattern runs; otherwise a
supervisor-typed assigned agent selects the Supervisor pattern; otherwise
the Single-Agent pattern. -/
def select_pattern (assignedAgent : Option AgentRow) (team_member_ids : List Nat)
    (leader_agent_id : Option Nat) : Except String CoordPattern :=
  match assignedAgent with
  | none => Except.error "Task must be assigned to an agent"
  | some agent =>
    if !team_member_ids.isEmpty && leader_agent_id.isSome then
      Except.ok CoordPattern.dynamicTeam
    else if agent.agent_type = "supervisor" then
      Except.ok CoordPattern.supervisorPattern
    else
      Except.ok CoordPattern.singleAgent

/-- A TaskInteraction row (models/task_interaction.py): the fields the
claims inspect. -/
structure TaskInteractionRow where
  interaction_type : String
  requires_response : Bool
  response : Option String
deriving DecidableEq

/-- An ExecutionLog row (models/execution_log.py): only the status field is
inspected by `get_detailed_status`. -/
structure ExecutionLogRow where
  status : String
deriving DecidableEq

/-- A ToolApprovalRequest row (models/tool_approval.py): the fields the
Approval Gate reads and writes. -/
structure ToolApprovalRow where
  status : String
  responded_at : Option Nat
  response_note : Option String
deriving DecidableEq

/-- The filter of `Task.get_detailed_status` for an unanswered question
(models/task.py lines 163-167): interaction_type = question,
requires_response true, response null. -/
def pendingQuestion (i : TaskInteractionRow) : Bool :=
  i.interaction_type == "question" && i.requires_response && i.response.isNone

/-- The filter of `Task.get_detailed_status` for a pending tool approval
(models/task.py lines 174-177): an ExecutionLog row of the task whose
status is pending_approval. -/
def pendingApprovalLog (l : ExecutionLogRow) : Bool :=
  l.status == "pending_approval"

/-- `Task.get_detailed_status` (models/task.py lines 139-185), over the
task's stored status, its interactions and its execution-log rows. -/
def get_detailed_status (status : String) (interactions : List TaskInteractionRow)
    (logs : List ExecutionLogRow) : String :=
  if status = "pending" ∨ status = "completed" ∨ status = "failed" ∨ status = "cancelled" then
    status
  else if status = "waiting_for_input" then "waiting_input"
  else if status = "running" then
    if interactions.any pendingQuestion then "waiting_input"
    else if logs.any pendingApprovalLog then "waiting_approval"
    else "running"
  else status

/-- Python truthiness of a nullable pending-approval row list: the claim's
"a pending ApprovalRequest exists for that task". -/
def pendingApprovalRequest (a : ToolApprovalRow) : Bool :=
  a.status == "pending"

/-- Claim C1 exactly as stated: while the stored status is running, the
derived status is waiting_input iff some interaction has
requires_response true and response null, is waiting_approval iff a
pending ToolApprovalRequest of the task exists, and otherwise equals the
stored status; a stored status among pending/completed/failed/cancelled is
returned unchanged. -/
def C1Statement (status : String) (interactions : List TaskInteractionRow)
    (approvals : List ToolApprovalRow) (logs : List ExecutionLogRow) : Prop :=
  (status = "running" →
    ((get_detailed_status status interactions logs = "waiting_input" ↔
        interactions.any (fun i => i.requires_response && i.response.isNone) = true) ∧
     (get_detailed_status status interactions logs = "waiting_approval" ↔
        approvals.any pendingApprovalRequest = true) ∧
     (interactions.any (fun i => i.requires_response && i.response.isNone) = false →
      approvals.any pendingApprovalRequest = false →
      get_detailed_status status interactions logs = status))) ∧
  ((status = "pending" ∨ status = "completed" ∨ status = "failed" ∨ status = "cancelled") →
    get_detailed_status status interactions logs = status)

/-- An Approval Gate request row as mutated by ApprovalService; `none`
models a missing row (query returned None). -/
def markTimeout (now : Nat) (a : ToolApprovalRow) : ToolApprovalRow :=
  { a with status := "timeout", responded_at := some now }

/-- One iteration plus final timeout handling of
`ApprovalService.wait_for_approval` (approval_service.py lines 53-92):
`f i` is the row the query returns at the i-th one-second poll; `fuel`
counts the remaining polls before the timeout T elapses; on timeout the
row is re-queried (at index `i`) and marked timeout when still pending.
Returns the Boolean result together with the row as left in the store. -/
def waitFrom (f : Nat → Option ToolApprovalRow) (now : Nat) :
    Nat → Nat → Bool × Option ToolApprovalRow
  | i, 0 =>
    match f i with
    | some a =>
      if a.status = "pending" then (false, some (markTimeout now a))
      else (false, some a)
    | none => (false, none)
  | i, fuel + 1 =>
    match f i with
    | none => (false, none)
    | some a =>
      if a.status = "approved" then (true, some a)
      else if a.status = "rejected" then (false, some a)
      else waitFrom f now (i + 1) fuel

/-- `ApprovalService.wait_for_approval` with timeout `T` polls, observing
row states through `f`. -/
def wait_for_approval (f : Nat → Option ToolApprovalRow) (now : Nat) (T : Nat) :
    Bool × Option ToolApprovalRow :=
  waitFrom f now 0 T

/-- `ApprovalService.approve_request` (approval_service.py lines 94-123):
only a pending row transitions, to approved, recording responded_at and
the optional note; a missing or non-pending row yields False with the row
unchanged. -/
def approve_request (now : Nat) (row : Option ToolApprovalRow) (note : Option String) :
    Bool × Option ToolApprovalRow :=
  match row with
  | none => (false, none)
  | some a =>
    if a.status ≠ "pending" then (false, some a)
    else (true, some { a with status := "approved", responded_at := some now,
                              response_note := note })

/-- `ApprovalService.reject_request` (approval_service.py lines 125-154):
same guard as approve, transitioning a pending row to rejected. -/
def reject_request (now : Nat) (row : Option ToolApprovalRow) (note : Option String) :
    Bool × Option ToolApprovalRow :=
  match row with
  | none => (false, none)
  | some a =>
    if a.status ≠ "pending" then (false, some a)
    else (true, some { a with status := "rejected", responded_at := some now,
                              response_note := note })

/-- Python truthiness of a nullable text column (None and the empty string
are falsy). -/
def textTruthy : Option String → Bool
  | none => false
  | some s => !(s = "")

/-- One observation made by `HumanInputTool._run` inside its polling loop
(human_input_tool.py lines 112-139): the task status after the refresh,
and the question interaction's response field after its refresh. -/
structure PollObs where
  taskStatus : String
  response : Option String
deriving DecidableEq

/-- How one call of `HumanInputTool._run` ends: with an answer string,
by raising the cancellation exception, or still inside the loop after the
observations ran out. -/
inductive HIOutcome where
  | answered (answer : String)
  | cancelledRaised
  | stillWaiting
deriving DecidableEq

/-- An interaction as written by the execution side: type, content and
the requires_response flag. -/
structure WrittenInteraction where
  interaction_type : String
  content : String
  requires_response : Bool
deriving DecidableEq

/-- The skip message of the auto-mode branch of `HumanInputTool._run`
(human_input_tool.py line 73). -/
def skipMessage (question : String) : String :=
  "[自動モード] 質問「" ++ question ++ "」をスキップしました。エージェントが自動的に判断します。"

/-- The polling loop of `HumanInputTool._run` (human_input_tool.py lines
112-139): each second it re-reads the task status (raising when
cancelled) and the question interaction's response; a truthy response is
recorded as one user_response interaction and returned. Returns how the
loop ended together with the interactions it wrote. -/
def humanInputPollLoop : List PollObs → HIOutcome × List WrittenInteraction
  | [] => (HIOutcome.stillWaiting, [])
  | p :: rest =>
    if p.taskStatus = "cancelled" then (HIOutcome.cancelledRaised, [])
    else if textTruthy p.response then
      match p.response with
      | some r => (HIOutcome.answered r, [⟨"user_response", r, false⟩])
      | none => (HIOutcome.stillWaiting, [])
    else humanInputPollLoop rest

/-- `HumanInputTool._run` (human_input_tool.py lines 52-139) for a task
that exists: under auto_mode it records one informational skip interaction
(requires_response false) and immediately returns the skip message,
without reading any poll observation; otherwise it writes the question
interaction (requires_response true) and enters the polling loop. -/
def humanInputRun (auto_mode : Bool) (question : String) (polls : List PollObs) :
    HIOutcome × List WrittenInteraction :=
  if auto_mode then
    (HIOutcome.answered (skipMessage question), [⟨"info", skipMessage question, false⟩])
  else
    let res := humanInputPollLoop polls
    (res.1, ⟨"question", question, true⟩ :: res.2)

/-- `respond_to_interaction` (api/task_interactions.py lines 71-115):
rejects an interaction not requiring a response, one already answered
(truthy response), or a missing/empty response text; otherwise writes the
text into the interaction's response field. -/
def respond_to_interaction (i : TaskInteractionRow) (response_text : Option String) :
    Except String TaskInteractionRow :=
  if !i.requires_response then
    Except.error "This interaction does not require a response"
  else if textTruthy i.response then
    Except.error "This interaction has already been responded to"
  else if !textTruthy response_text then
    Except.error "Response text is required"
  else
    Except.ok { i with response := response_text }

/-- The rewritten task description of `send_user_message`
(api/task_interactions.py lines 199-207): references the prior result and
the new instruction. -/
def rewriteDescription (original_description message : String) : String :=
  "前回のタスク結果を参照して、以下の追加指示に従ってください：\n\n【追加指示】\n" ++
  message ++
  "\n\n【注意】\n- 前回の会話履歴と結果を参照してください\n- 元のタスク: " ++
  original_description ++
  "\n- 新しいタスクを最初から実行するのではなく、前回の結果を基に追加指示に応答してください"

/-- The observable effect of `send_user_message`
(api/task_interactions.py lines 152-231) on the task and the interaction
log: the interactions written, the resulting status and description, and
whether execute was re-invoked asynchronously. -/
structure UserMessageEffect where
  interactions : List WrittenInteraction
  status : String
  description : String
  executed : Bool
deriving DecidableEq

/-- `send_user_message` (api/task_interactions.py lines 152-231): a missing
or empty message is rejected; otherwise the message is recorded as a
user_message interaction, and when the task status is completed or failed
the description is rewritten, the status reset to running and execution
re-invoked; any other status leaves the task unchanged. -/
def send_user_message (status description : String) (message : Option String) :
    Except String UserMessageEffect :=
  match message with
  | none => Except.error "Message is required"
  | some m =>
    if m = "" then Except.error "Message is required"
    else
      let inter : WrittenInteraction := ⟨"user_message", m, false⟩
      if status = "completed" ∨ status = "failed" then
        Except.ok ⟨[inter], "running", rewriteDescription description m, true⟩
      else
        Except.ok ⟨[inter], status, description, false⟩

/-- Outcome of the execute endpoint (api/tasks.py lines 167-220): success
flag, error text, the task's assigned agent after the call and whether
background execution was started. -/
structure ExecuteApiResult where
  ok : Bool
  error : Option String
  assigned : Option Nat
  executionStarted : Bool
deriving DecidableEq

/-- `execute_task` endpoint (api/tasks.py lines 167-220): a running task is
rejected with no state change; a task with no assigned agent is assigned
the first existing agent, and rejected with no state change when no agent
exists; otherwise background execution starts. -/
def execute_task_api (status : String) (assigned : Option Nat) (agents : List Nat) :
    ExecuteApiResult :=
  if status = "running" then
    ⟨false, some "Task is already running", assigned, false⟩
  else
    match assigned with
    | some a => ⟨true, none, some a, true⟩
    | none =>
      match agents.head? with
      | none => ⟨false, some "No agents available. Please create an agent first.", none, false⟩
      | some a => ⟨true, none, some a, true⟩

/-- What the agent run inside `ExecutionService.execute_task` produces:
a result dict with success True and a result text, a result dict with
success False and an error text, or a raised exception with a message. -/
inductive AgentOutcome where
  | success (result : String)
  | failure (error : String)
  | exceptionRaised (msg : String)
deriving DecidableEq

/-- The Python dict `execute_task` hands back to its caller. -/
structure PyResult where
  success : Bool
  result : Option String
  error : Option String
deriving DecidableEq

/-- The state `ExecutionService.execute_task` leaves behind: the task's
final status and error message, the agent's status, the interactions
written by the terminal handling, the execution-log action names written,
and the returned dict (`none` when the exception is re-raised). -/
structure ExecutionEffect where
  finalStatus : String
  errorMessage : Option String
  agentStatus : String
  termInteractions : List WrittenInteraction
  execLogActions : List String
  returned : Option PyResult
deriving DecidableEq

/-- The exception handler of `ExecutionService.execute_task`
(execution_service.py lines 330-385): when the message contains
"cancelled" (case-insensitive) or the stored task status is cancelled, the
task ends cancelled with error message "Task was cancelled by user", the
agent returns to idle, an informational cancellation interaction is
written and the call returns a failure dict; otherwise the task ends
failed with the exception message, only an execution-log entry is written
and the exception is re-raised. -/
def handleExecuteException (msg : String) (statusCancelled : Bool)
    (logsSoFar : List String) : ExecutionEffect :=
  if containsSub "cancelled".data (lowerChars msg) || statusCancelled then
    { finalStatus := "cancelled",
      errorMessage := some "Task was cancelled by user",
      agentStatus := "idle",
      termInteractions := [⟨"info", "タスクがキャンセルされました", false⟩],
      execLogActions := logsSoFar ++ ["task_cancelled"],
      returned := some ⟨false, none, some "Task cancelled by user"⟩ }
  else
    { finalStatus := "failed",
      errorMessage := some msg,
      agentStatus := "idle",
      termInteractions := [],
      execLogActions := logsSoFar ++ ["task_failed"],
      returned := none }

/-- The single-agent body of `ExecutionService.execute_task`
(execution_service.py lines 100-385). `cancelledBefore` / `cancelledDuring`
model an external `cancel_task` observed at the pre- and post-streaming
checkpoints (lines 236-239, 251-255), each raising the "Task was
cancelled" exception; otherwise the branch on the agent outcome runs
(lines 261-327), and any raised exception goes to the handler. -/
def execute_task_single (cancelledBefore cancelledDuring : Bool)
    (outcome : AgentOutcome) : ExecutionEffect :=
  let startLogs : List String := ["task_started", "agent_execution_started"]
  let statusCancelled := cancelledBefore || cancelledDuring
  if cancelledBefore then
    handleExecuteException "Task was cancelled" statusCancelled startLogs
  else
    match outcome with
    | AgentOutcome.exceptionRaised m =>
      handleExecuteException m statusCancelled startLogs
    | AgentOutcome.success r =>
      if cancelledDuring then
        handleExecuteException "Task was cancelled" statusCancelled startLogs
      else
        { finalStatus := "completed",
          errorMessage := none,
          agentStatus := "idle",
          termInteractions := [⟨"result", r, false⟩],
          execLogActions := startLogs ++ ["task_completed"],
          returned := some ⟨true, some r, none⟩ }
    | AgentOutcome.failure e =>
      if cancelledDuring then
        handleExecuteException "Task was cancelled" statusCancelled startLogs
      else
        { finalStatus := "failed",
          errorMessage := some e,
          agentStatus := "idle",
          termInteractions := [⟨"error", e, false⟩],
          execLogActions := startLogs ++ ["task_failed"],
          returned := some ⟨false, none, some e⟩ }

/-- The exception handler of `ExecutionService._execute_with_supervisor`
(execution_service.py lines 713-761): same shape as the single-agent
handler, with the supervisor-pattern interaction text and log actions. -/
def handleSupervisorException (msg : String) (statusCancelled : Bool)
    (logsSoFar : List String) : ExecutionEffect :=
  if containsSub "cancelled".data (lowerChars msg) || statusCancelled then
    { finalStatus := "cancelled",
      errorMessage := some "Task was cancelled by user",
      agentStatus := "idle",
      termInteractions := [⟨"info", "タスクがキャンセルされました（Supervisor Pattern）", false⟩],
      execLogActions := logsSoFar ++ ["supervisor_task_cancelled"],
      returned := some ⟨false, none, some "Task cancelled by user"⟩ }
  else
    { finalStatus := "failed",
      errorMessage := some msg,
      agentStatus := "idle",
      termInteractions := [],
      execLogActions := logsSoFar ++ ["supervisor_task_failed"],
      returned := none }

/-- What the supervisor graph run produces: `_execute_with_supervisor`
treats any value returned by invoke as success, so the only alternatives
are a result or a raised exception. -/
inductive SupervisorOutcome where
  | success (result : String)
  | exceptionRaised (msg : String)
deriving DecidableEq

/-- `ExecutionService._execute_with_supervisor` (execution_service.py lines
562-761): a supervisor with no workers raises a ValueError; cancellation
checkpoints sit before and during streaming; a completed run writes one
informational interaction and returns success with the invoke result. -/
def execute_with_supervisor (supervisorName : String) (hasWorkers : Bool)
    (cancelledBefore cancelledDuring : Bool) (outcome : SupervisorOutcome) : ExecutionEffect :=
  let startLogs : List String := ["supervisor_task_started"]
  let statusCancelled := cancelledBefore || cancelledDuring
  if !hasWorkers then
    handleSupervisorException ("Supervisor " ++ supervisorName ++ " has no workers assigned")
      statusCancelled startLogs
  else if cancelledBefore then
    handleSupervisorException "Task was cancelled" statusCancelled startLogs
  else
    match outcome with
    | SupervisorOutcome.exceptionRaised m =>
      handleSupervisorException m statusCancelled startLogs
    | SupervisorOutcome.success r =>
      if cancelledDuring then
        handleSupervisorException "Task was cancelled" statusCancelled startLogs
      else
        { finalStatus := "completed",
          errorMessage := none,
          agentStatus := "idle",
          termInteractions := [⟨"info", "タスクが正常に完了しました（Supervisor Pattern）", false⟩],
          execLogActions := startLogs ++ ["supervisor_task_completed"],
          returned := some ⟨true, some r, none⟩ }

/-- Claim C2 exactly as stated, over the single-agent and supervisor
executions: whenever the final status is terminal, at least one
interaction describing the outcome was written before the execution
returned. -/
def C2Statement (eff : ExecutionEffect) : Prop :=
  (eff.finalStatus = "completed" ∨ eff.finalStatus = "failed" ∨ eff.finalStatus = "cancelled") →
  eff.termInteractions ≠ []

/-- C1 as frozen is false on the code: a running task with one pending
ToolApprovalRequest, no interactions and no pending_approval execution-log
row derives detailed status "running", while the claim demands
"waiting_approval". `get_detailed_status` never reads ToolApprovalRequest
rows. -/
theorem C1_counterexample :
    ¬ C1Statement "running" [] [⟨"pending", none, none⟩] [] := by
  unfold C1Statement
  decide

/-- C1 amended: while the stored status is running, the detailed status is
waiting_input iff an unanswered question interaction
(interaction_type = question, requires_response true, response null)
exists; it is waiting_approval iff no such question exists and an
ExecutionLog row of the task with status pending_approval exists (the
code checks the execution log, not ToolApprovalRequest); otherwise it is
running. A stored status among pending/completed/failed/cancelled is
returned unchanged. -/
theorem C1_detailed_status (status : String)
    (interactions : List TaskInteractionRow) (logs : List ExecutionLogRow) :
    (status = "running" →
      ((get_detailed_status status interactions logs = "waiting_input" ↔
          interactions.any pendingQuestion = true) ∧
       (get_detailed_status status interactions logs = "waiting_approval" ↔
          (interactions.any pendingQuestion = false ∧ logs.any pendingApprovalLog = true)) ∧
       (interactions.any pendingQuestion = false → logs.any pendingApprovalLog = false →
          get_detailed_status status interactions logs = "running"))) ∧
    ((status = "pending" ∨ status = "completed" ∨ status = "failed" ∨ status = "cancelled") →
      get_detailed_status status interactions logs = status) := by
  constructor
  · intro h
    subst h
    cases hq : interactions.any pendingQuestion <;>
      cases hl : logs.any pendingApprovalLog <;>
        simp [get_detailed_status, hq, hl]
  · intro h
    rcases h with h | h | h | h <;> subst h <;> simp [get_detailed_status]

/-- Concrete instance of the amended C1: one pending_approval execution-log
row and no pending question derive "waiting_approval" for a running
task. -/
theorem C1_detailed_status_witness :
    get_detailed_status "running" [] [⟨"pending_approval"⟩] = "waiting_approval" :=
  ((C1_detailed_status "running" [] [⟨"pending_approval"⟩]).1 rfl).2.1.mpr (by decide)

/-- C2 as frozen is false on the code: an exception whose message does not
mention cancellation (here "boom") drives the single-agent execution to
final status failed with no interaction written by the terminal handling
(only an execution-log entry), so the terminal state is not accompanied by
an Interaction Log entry. -/
theorem C2_counterexample :
    ¬ C2Statement (execute_task_single false false (AgentOutcome.exceptionRaised "boom")) := by
  unfold C2Statement
  decide

/-- C2 amended: the single-agent and supervisor executions write at least
one interaction describing the outcome exactly when they return normally
(completed, cancelled, and failures reported as an unsuccessful result
dict); a failure that propagates as a re-raised exception reaches status
failed with only an execution-log entry (task_failed /
supervisor_task_failed) and writes no interaction. -/
theorem C2_terminal_interaction
    (cb cd : Bool) (o : AgentOutcome)
    (name : String) (hw cb2 cd2 : Bool) (so : SupervisorOutcome) :
    (((execute_task_single cb cd o).returned.isSome →
        (execute_task_single cb cd o).termInteractions ≠ []) ∧
     ((execute_task_single cb cd o).returned = none →
        (execute_task_single cb cd o).finalStatus = "failed" ∧
        (execute_task_single cb cd o).termInteractions = [] ∧
        "task_failed" ∈ (execute_task_single cb cd o).execLogActions)) ∧
    (((execute_with_supervisor name hw cb2 cd2 so).returned.isSome →
        (execute_with_supervisor name hw cb2 cd2 so).termInteractions ≠ []) ∧
     ((execute_with_supervisor name hw cb2 cd2 so).returned = none →
        (execute_with_supervisor name hw cb2 cd2 so).finalStatus = "failed" ∧
        (execute_with_supervisor name hw cb2 cd2 so).termInteractions = [] ∧
        "supervisor_task_failed" ∈
          (execute_with_supervisor name hw cb2 cd2 so).execLogActions)) := by
  constructor
  · unfold execute_task_single handleExecuteException
    cases cb <;> cases cd <;> cases o <;> simp <;> split <;> simp
  · unfold execute_with_supervisor handleSupervisorException
    cases hw <;> cases cb2 <;> cases cd2 <;> cases so <;> simp <;> split <;> simp

/-- Concrete instance of the amended C2: a failure result dict yields a
returned call and a non-empty terminal interaction list, and a re-raised
exception yields status failed with a task_failed execution-log entry. -/
theorem C2_terminal_interaction_witness :
    (execute_task_single false false (AgentOutcome.failure "llm error")).termInteractions ≠ [] ∧
    (execute_task_single false false (AgentOutcome.exceptionRaised "boom")).finalStatus = "failed" :=
  ⟨(C2_terminal_interaction false false (AgentOutcome.failure "llm error")
      "Sup" true false false (SupervisorOutcome.success "r")).1.1 (by decide),
   ((C2_terminal_interaction false false (AgentOutcome.exceptionRaised "boom")
      "Sup" true false false (SupervisorOutcome.success "r")).1.2 (by decide)).1⟩

/-- Poll observations that neither cancel the task nor carry a truthy
response are consumed by the loop without effect. -/
theorem humanInputPollLoop_drop (pre : List PollObs) (tail : List PollObs)
    (hpre : ∀ x ∈ pre, x.taskStatus ≠ "cancelled" ∧ textTruthy x.response = false) :
    humanInputPollLoop (pre ++ tail) = humanInputPollLoop tail := by
  induction pre with
  | nil => rfl
  | cons a as ih =>
    obtain ⟨h1, h2⟩ := hpre a (by simp)
    have ih2 := ih (fun x hx => hpre x (by simp [hx]))
    simp [humanInputPollLoop, h1, h2, ih2]

/-- C3: under auto_mode the Human-Input Gate returns in one call, never
reading a poll observation, records exactly one informational skip
interaction with requires_response false, and returns the synthetic skip
message; under auto_mode false, once `respond_to_interaction` has written
the answer text into the question interaction, a terminating run returns
exactly that text and creates exactly one user_response interaction. -/
theorem C3_human_input_gate (q t s : String) (i i2 : TaskInteractionRow)
    (pre rest : List PollObs)
    (hresp : respond_to_interaction i (some t) = Except.ok i2)
    (hpre : ∀ p ∈ pre, p.taskStatus ≠ "cancelled" ∧ textTruthy p.response = false)
    (hs : s ≠ "cancelled") :
    (∀ polls, humanInputRun true q polls =
      (HIOutcome.answered (skipMessage q), [⟨"info", skipMessage q, false⟩])) ∧
    i2.response = some t ∧
    humanInputRun false q (pre ++ ⟨s, some t⟩ :: rest) =
      (HIOutcome.answered t,
       [⟨"question", q, true⟩, ⟨"user_response", t, false⟩]) := by
  have hkey : textTruthy (some t) = true ∧ i2.response = some t := by
    unfold respond_to_interaction at hresp
    split at hresp
    · exact absurd hresp (by simp)
    · split at hresp
      · exact absurd hresp (by simp)
      · split at hresp
        · exact absurd hresp (by simp)
        · rename_i hcond
          cases hresp
          exact ⟨by simpa using hcond, rfl⟩
  obtain ⟨ht, hi2⟩ := hkey
  refine ⟨fun polls => rfl, hi2, ?_⟩
  unfold humanInputRun
  rw [humanInputPollLoop_drop pre (⟨s, some t⟩ :: rest) hpre]
  simp [humanInputPollLoop, hs, ht]

/-- Concrete instance of C3: the answer written through
respond_to_interaction is returned by the gate after one idle poll, with
exactly one user_response interaction. -/
theorem C3_human_input_gate_witness :
    humanInputRun false "どのファイルですか" ([⟨"running", none⟩] ++ ⟨"running", some "data.csv"⟩ :: []) =
      (HIOutcome.answered "data.csv",
       [⟨"question", "どのファイルですか", true⟩, ⟨"user_response", "data.csv", false⟩]) :=
  (C3_human_input_gate "どのファイルですか" "data.csv" "running"
      ⟨"question", true, none⟩ ⟨"question", true, some "data.csv"⟩
      [⟨"running", none⟩] []
      rfl
      (by decide)
      (by decide)).2.2

/-- A run of `waitFrom` over polls that all see a pending row times out:
it returns False and marks the row re-queried at the end as timeout. -/
theorem waitFrom_timeout_of_pending (f : Nat → Option ToolApprovalRow) (now : Nat) :
    ∀ (fuel i : Nat),
      (∀ j, i ≤ j → j ≤ i + fuel → ∃ a, f j = some a ∧ a.status = "pending") →
      waitFrom f now i fuel = (false, (f (i + fuel)).map (markTimeout now)) := by
  intro fuel
  induction fuel with
  | zero =>
    intro i h
    obtain ⟨a, ha, hst⟩ := h i le_rfl (by omega)
    simp [waitFrom, ha, hst, markTimeout]
  | succ n ih =>
    intro i h
    obtain ⟨a, ha, hst⟩ := h i le_rfl (by omega)
    have step : waitFrom f now i (n + 1) = waitFrom f now (i + 1) n := by
      simp [waitFrom, ha, hst]
    have harg : i + 1 + n = i + (n + 1) := by omega
    rw [step, ih (i + 1) (fun j hj1 hj2 => h j (by omega) (by omega)), harg]

/-- C4: a wait whose T polls (and final re-query) all see the request still
pending returns rejected (False) and marks the request timeout; approve
transitions only a pending request, recording responded_at and the note; a
second approve on the already-approved request, or any approve/reject on a
non-pending request, returns failure and leaves status, responded_at and
response_note unchanged. -/
theorem C4_approval_gate
    (f : Nat → Option ToolApprovalRow) (T now now2 : Nat)
    (a b last : ToolApprovalRow) (note note2 : Option String)
    (hpend : ∀ j, j ≤ T → ∃ c, f j = some c ∧ c.status = "pending")
    (hlast : f T = some last)
    (ha : a.status = "pending")
    (hb : b.status ≠ "pending") :
    wait_for_approval f now T =
      (false, some { last with status := "timeout", responded_at := some now }) ∧
    approve_request now (some a) note =
      (true, some { a with status := "approved", responded_at := some now, response_note := note }) ∧
    approve_request now2 (some { a with status := "approved", responded_at := some now, response_note := note }) note2 =
      (false, some { a with status := "approved", responded_at := some now, response_note := note }) ∧
    approve_request now2 (some b) note2 = (false, some b) ∧
    reject_request now2 (some b) note2 = (false, some b) := by
  refine ⟨?_, ?_, ?_, ?_, ?_⟩
  · have := waitFrom_timeout_of_pending f now T 0 (fun j hj1 hj2 => hpend j (by omega))
    unfold wait_for_approval
    rw [this]
    simp [hlast, markTimeout]
  · simp [approve_request, ha]
  · simp [approve_request]
  · simp [approve_request, hb]
  · simp [reject_request, hb]

/-- Concrete instance of C4: with a row that stays pending through two
polls, the wait times out and marks the row; approve succeeds once and the
second approve fails leaving the row unchanged. -/
theorem C4_approval_gate_witness :
    wait_for_approval (fun _ => some ⟨"pending", none, none⟩) 9 2 =
      (false, some ⟨"timeout", some 9, none⟩) ∧
    approve_request 9 (some ⟨"pending", none, none⟩) (some "ok") =
      (true, some ⟨"approved", some 9, some "ok"⟩) ∧
    approve_request 11 (some ⟨"approved", some 9, some "ok"⟩) (some "again") =
      (false, some ⟨"approved", some 9, some "ok"⟩) :=
  have h := C4_approval_gate (fun _ => some ⟨"pending", none, none⟩) 2 9 11
    ⟨"pending", none, none⟩ ⟨"approved", some 9, some "ok"⟩ ⟨"pending", none, none⟩
    (some "ok") (some "again")
    (fun j _ => ⟨⟨"pending", none, none⟩, rfl, rfl⟩)
    rfl rfl (by decide)
  ⟨h.1, h.2.1, h.2.2.1⟩

/-- C5: for a non-empty worker list, a supervisor response containing
FINISH (case-insensitive) routes to the terminal state regardless of other
text; otherwise the first registered worker whose name occurs
case-insensitively in the response is selected and routed to, and with no
match the first registered worker is selected. -/
theorem C5_supervisor_routing (workers : List String) (content : String) :
    (containsSub (upperChars "FINISH") (upperChars content) = true →
      extract_next_worker workers content = "FINISH" ∧
      route_supervisor (some (extract_next_worker workers content)) = GraphRoute.terminalEnd) ∧
    (containsSub (upperChars "FINISH") (upperChars content) = false →
      (∀ w, workers.find? (fun v => containsSub (upperChars v) (upperChars content)) = some w →
        extract_next_worker workers content = w ∧
        route_supervisor (some (extract_next_worker workers content)) = GraphRoute.node w) ∧
      (workers.find? (fun v => containsSub (upperChars v) (upperChars content)) = none →
        ∀ w0 ws, workers = w0 :: ws → extract_next_worker workers content = w0)) := by
  constructor
  · intro hf
    constructor
    · simp [extract_next_worker, hf]
    · simp [extract_next_worker, hf, route_supervisor]
  · intro hf
    constructor
    · intro w hfind
      have hsub : containsSub (upperChars w) (upperChars content) = true := by
        have h2 := List.find?_some hfind
        simpa using h2
      have hwne : w ≠ "FINISH" := by
        intro he
        rw [he] at hsub
        rw [hsub] at hf
        exact absurd hf (by simp)
      constructor
      · simp [extract_next_worker, hf, hfind]
      · simp [extract_next_worker, hf, hfind, route_supervisor, hwne]
    · intro hnone w0 ws hw
      subst hw
      simp [extract_next_worker, hf, hnone]

/-- Concrete instance of C5: with workers A and B, a response mentioning B
and FINISH terminates; a response mentioning only b routes to worker B; a
response mentioning neither defaults to worker A. -/
theorem C5_supervisor_routing_witness :
    route_supervisor (some (extract_next_worker ["Alice", "Bob"] "work done, FINISH now")) =
      GraphRoute.terminalEnd ∧
    extract_next_worker ["Alice", "Bob"] "give this to bob" = "Bob" ∧
    extract_next_worker ["Alice", "Bob"] "hmm" = "Alice" :=
  ⟨((C5_supervisor_routing ["Alice", "Bob"] "work done, FINISH now").1 (by decide)).2,
   (((C5_supervisor_routing ["Alice", "Bob"] "give this to bob").2 (by decide)).1 "Bob"
      (by decide)).1,
   ((C5_supervisor_routing ["Alice", "Bob"] "hmm").2 (by decide)).2 (by decide) "Alice" ["Bob"] rfl⟩

/-- C6: with an existing assigned agent, non-empty team_member_ids together
with a set leader_agent_id select the Dynamic-Team pattern; otherwise a
supervisor-typed assigned agent selects the Supervisor pattern; otherwise
the Single-Agent pattern runs. -/
theorem C6_pattern_selection (agent : AgentRow) (team_member_ids : List Nat)
    (leader_agent_id : Option Nat) :
    (team_member_ids ≠ [] → leader_agent_id.isSome →
      select_pattern (some agent) team_member_ids leader_agent_id =
        Except.ok CoordPattern.dynamicTeam) ∧
    ((team_member_ids = [] ∨ leader_agent_id = none) → agent.agent_type = "supervisor" →
      select_pattern (some agent) team_member_ids leader_agent_id =
        Except.ok CoordPattern.supervisorPattern) ∧
    ((team_member_ids = [] ∨ leader_agent_id = none) → agent.agent_type ≠ "supervisor" →
      select_pattern (some agent) team_member_ids leader_agent_id =
        Except.ok CoordPattern.singleAgent) := by
  refine ⟨?_, ?_, ?_⟩
  · intro h1 h2
    simp [select_pattern, h1, h2, List.isEmpty_iff]
  · intro h1 h2
    rcases h1 with h1 | h1 <;> simp [select_pattern, h1, h2, List.isEmpty_iff]
  · intro h1 h2
    rcases h1 with h1 | h1 <;> simp [select_pattern, h1, h2, List.isEmpty_iff]

/-- Concrete instance of C6: team fields present select Dynamic-Team; a
supervisor agent without them selects Supervisor; a worker agent with
neither selects Single-Agent. -/
theorem C6_pattern_selection_witness :
    select_pattern (some ⟨"worker"⟩) [4, 5] (some 2) = Except.ok CoordPattern.dynamicTeam ∧
    select_pattern (some ⟨"supervisor"⟩) [] none = Except.ok CoordPattern.supervisorPattern ∧
    select_pattern (some ⟨"worker"⟩) [] none = Except.ok CoordPattern.singleAgent :=
  ⟨(C6_pattern_selection ⟨"worker"⟩ [4, 5] (some 2)).1 (by decide) (by decide),
   (C6_pattern_selection ⟨"supervisor"⟩ [] none).2.1 (Or.inl rfl) rfl,
   (C6_pattern_selection ⟨"worker"⟩ [] none).2.2 (Or.inl rfl) (by decide)⟩

/-- C7: a non-empty user message on a completed or failed task is recorded
as a user_message interaction, the description is rewritten to reference
the prior task plus the new instruction, the status is reset to running
and execution is re-invoked; on a task in any other status the message is
recorded but the resume is not performed. -/
theorem C7_resume_with_message (status description message : String)
    (hm : message ≠ "") :
    ((status = "completed" ∨ status = "failed") →
      send_user_message status description (some message) =
        Except.ok ⟨[⟨"user_message", message, false⟩], "running",
                   rewriteDescription description message, true⟩) ∧
    (status ≠ "completed" → status ≠ "failed" →
      send_user_message status description (some message) =
        Except.ok ⟨[⟨"user_message", message, false⟩], status, description, false⟩) := by
  constructor
  · intro h
    simp [send_user_message, hm, h]
  · intro h1 h2
    simp [send_user_message, hm, h1, h2]

/-- Concrete instance of C7: a message on a failed task resumes it, and the
same message on a running task changes nothing but the log. -/
theorem C7_resume_with_message_witness :
    send_user_message "failed" "集計する" (some "その表も出して") =
      Except.ok ⟨[⟨"user_message", "その表も出して", false⟩], "running",
                 rewriteDescription "集計する" "その表も出して", true⟩ ∧
    send_user_message "running" "集計する" (some "その表も出して") =
      Except.ok ⟨[⟨"user_message", "その表も出して", false⟩], "running", "集計する", false⟩ :=
  ⟨(C7_resume_with_message "failed" "集計する" "その表も出して" (by decide)).1 (Or.inr rfl),
   (C7_resume_with_message "running" "集計する" "その表も出して" (by decide)).2
     (by decide) (by decide)⟩

/-- C8: executing an already-running task is rejected with an error and no
state change; a task with no assigned agent gets the first existing agent
assigned before execution starts; with no agent in the system the request
is rejected with an error and no state change. -/
theorem C8_execute_guard (status : String) (assigned : Option Nat) (agents : List Nat) :
    (status = "running" →
      execute_task_api status assigned agents =
        ⟨false, some "Task is already running", assigned, false⟩) ∧
    (status ≠ "running" → assigned = none → agents = [] →
      execute_task_api status assigned agents =
        ⟨false, some "No agents available. Please create an agent first.", none, false⟩) ∧
    (status ≠ "running" → assigned = none → ∀ a rest, agents = a :: rest →
      execute_task_api status assigned agents = ⟨true, none, some a, true⟩) ∧
    (status ≠ "running" → ∀ a, assigned = some a →
      execute_task_api status assigned agents = ⟨true, none, some a, true⟩) := by
  refine ⟨?_, ?_, ?_, ?_⟩
  · intro h
    simp [execute_task_api, h]
  · intro h1 h2 h3
    subst h2; subst h3
    simp [execute_task_api, h1]
  · intro h1 h2 a rest h3
    subst h2; subst h3
    simp [execute_task_api, h1]
  · intro h1 a h2
    subst h2
    simp [execute_task_api, h1]

/-- Concrete instance of C8: a running task is rejected unchanged; an
unassigned pending task is auto-assigned the first agent; an unassigned
pending task with no agents is rejected unchanged. -/
theorem C8_execute_guard_witness :
    execute_task_api "running" (some 3) [1, 2] =
      ⟨false, some "Task is already running", some 3, false⟩ ∧
    execute_task_api "pending" none [7, 8] = ⟨true, none, some 7, true⟩ ∧
    execute_task_api "pending" none [] =
      ⟨false, some "No agents available. Please create an agent first.", none, false⟩ :=
  ⟨(C8_execute_guard "running" (some 3) [1, 2]).1 rfl,
   (C8_execute_guard "pending" none [7, 8]).2.2.1 (by decide) rfl 7 [8] rfl,
   (C8_execute_guard "pending" none []).2.1 (by decide) rfl rfl⟩

/-- C9: a leader review text containing one of the continuation markers
(追加作業が必要, 再度, もう一度) routes back to the Execute-Members node;
otherwise the cycle terminates and the review text is stored as
final_result. -/
theorem C9_leader_review_routing (reviewText : String) :
    (needs_more_work reviewText = true →
      should_continue (some (leader_review_node reviewText).next_action) =
        GraphRoute.node "execute_members") ∧
    (needs_more_work reviewText = false →
      should_continue (some (leader_review_node reviewText).next_action) =
        GraphRoute.terminalEnd ∧
      (leader_review_node reviewText).final_result = reviewText) := by
  constructor
  · intro h
    simp [leader_review_node, h, should_continue]
  · intro h
    refine ⟨?_, rfl⟩
    simp [leader_review_node, h, should_continue]

/-- Concrete instance of C9: a review containing 再度 loops back; a review
with no marker terminates with the review text as final_result. -/
theorem C9_leader_review_routing_witness :
    should_continue (some (leader_review_node "再度お願いします").next_action) =
      GraphRoute.node "execute_members" ∧
    should_continue (some (leader_review_node "完了しました").next_action) =
      GraphRoute.terminalEnd ∧
    (leader_review_node "完了しました").final_result = "完了しました" :=
  ⟨(C9_leader_review_routing "再度お願いします").1 (by decide),
   ((C9_leader_review_routing "完了しました").2 (by decide)).1,
   ((C9_leader_review_routing "完了しました").2 (by decide)).2⟩

/-- C10: in the single-agent path, an exception whose message contains
"cancelled" (case-insensitive) is handled as a cancellation even though
cancel_task was never called: the task ends cancelled with error message
"Task was cancelled by user", the agent returns to idle, and the call
returns a failure dict instead of re-raising. -/
theorem C10_cancelled_message_exception (m : String)
    (h : containsSub "cancelled".data (lowerChars m) = true) :
    execute_task_single false false (AgentOutcome.exceptionRaised m) =
      { finalStatus := "cancelled",
        errorMessage := some "Task was cancelled by user",
        agentStatus := "idle",
        termInteractions := [⟨"info", "タスクがキャンセルされました", false⟩],
        execLogActions := ["task_started", "agent_execution_started", "task_cancelled"],
        returned := some ⟨false, none, some "Task cancelled by user"⟩ } := by
  simp [execute_task_single, handleExecuteException, h]

/-- Concrete instance of C10: an exception message mentioning CANCELLED in
upper case, raised without any cancel request, still ends the task
cancelled with the fixed error message and a returned failure dict. -/
theorem C10_cancelled_message_exception_witness :
    execute_task_single false false
        (AgentOutcome.exceptionRaised "connection CANCELLED by peer") =
      { finalStatus := "cancelled",
        errorMessage := some "Task was cancelled by user",
        agentStatus := "idle",
        termInteractions := [⟨"info", "タスクがキャンセルされました", false⟩],
        execLogActions := ["task_started", "agent_execution_started", "task_cancelled"],
        returned := some ⟨false, none, some "Task cancelled by user"⟩ } :=
  C10_cancelled_message_exception "connection CANCELLED by peer" (by decide)
